import Mathlib

/-!
# Verification of the Marty backend request-orchestration flow

Shallow embedding of `src/app.py`: the `/chat` endpoint (`chat_endpoint`),
the catchphrase seasoning helper (`lightly_season`) and the speech-synthesis
helper (`tts_to_file`).  The two external collaborators (Gemini text
generation, ElevenLabs speech synthesis) are opaque in the source, so their
outcomes are passed in as explicit parameters; likewise the random source
(`random.random()` / `random.choice`) and the millisecond clock are passed
explicitly.  Python strings become `String`, the probability a `ℚ`
(`random.random()` draws lie in `[0,1)`), JSON values a small inductive.
-/

namespace Marty

/-- The whitespace characters removed by Python's `str.strip()` (the ASCII
ones; the endpoint only ever strips ordinary text). -/
def pyIsSpace (c : Char) : Bool :=
  c = ' ' || c = '\t' || c = '\n' || c = '\r' || c = '\x0b' || c = '\x0c'

/-- Python `str.strip()`: drop leading and trailing whitespace. -/
def pyStrip (s : String) : String :=
  (((s.data.dropWhile pyIsSpace).reverse.dropWhile pyIsSpace).reverse).asString

/-- Python `s.startswith(p)`. -/
def pyStartsWith (s p : String) : Bool :=
  p.data.isPrefixOf s.data

/-- The `CATCHPHRASES` list from `app.py` line 70, verbatim. -/
def CATCHPHRASES : List String :=
  ["Right then,", "Good shout.", "Let’s sort that.", "No worries.",
   "No problem.", "Got it!."]

/-- One draw of Python's random source as used by `lightly_season`:
`draw` models the result of `random.random()` (a value in `[0,1)`), and
`choiceIx` the selection made by `random.choice` (reduced modulo the list
length). -/
structure RandomSource where
  draw : ℚ
  choiceIx : ℕ
deriving DecidableEq, Repr

/-- Python's `random.random()` returns a value in `[0, 1)`. -/
def RandomSource.Valid (r : RandomSource) : Prop :=
  0 ≤ r.draw ∧ r.draw < 1

instance (r : RandomSource) : Decidable r.Valid := by
  unfold RandomSource.Valid; infer_instance

/-- Process-wide configuration read from the environment in `app.py`:
the catchphrase list and `CATCHPHRASE_PROB`. -/
structure MartyConfig where
  catchphrases : List String
  catchphraseProb : ℚ
deriving DecidableEq, Repr

/-- The configuration with the defaults hard-coded in `app.py`
(`CATCHPHRASES` and `MARTY_PHRASE_PROB` defaulting to `0.30`). -/
def defaultConfig : MartyConfig :=
  { catchphrases := CATCHPHRASES, catchphraseProb := mkRat 3 10 }

/-- Function `lightly_season` from `app.py` lines 117–128.  Faithful to the source:
if the text is falsy (empty) return it; if the catchphrase list is truthy
(non-empty) and the probability draw fires, and the text does not already
start with any catchphrase, prepend a uniformly chosen catchphrase and a
space; otherwise return the text unchanged.  (The `try/except` in the
source can never fire on this path: `random.choice` is only reached with a
non-empty list.) -/
def lightly_season (cps : List String) (prob : ℚ) (rng : RandomSource)
    (text : String) : String :=
  if text = "" then text
  else if cps ≠ [] ∧ rng.draw < prob then
    if ¬ (cps.any fun p => pyStartsWith text p) then
      (cps.getD (rng.choiceIx % cps.length) "") ++ " " ++ text
    else text
  else text

/-- Outcome of the Gemini call in `chat_endpoint` lines 170–185: either an
exception anywhere in the `try` block, or success with `resp.text`
(Python's `(resp.text or "")` maps a `None` text to `""`, so `success ""`
covers that case). -/
inductive GenOutcome where
  | failure
  | success (t : String)
deriving DecidableEq, Repr

/-- Outcome of the ElevenLabs call inside `tts_to_file` lines 146–153:
either an exception (network error, `raise_for_status`, file-write error),
or success, at which point `int(time.time()*1000)` reads the clock as
`nowMs`. -/
inductive TtsOutcome where
  | failure
  | success (nowMs : ℕ)
deriving DecidableEq, Repr

/-- The audio filename built at `app.py` line 148:
`f"marty_{int(time.time()*1000)}.mp3"`. -/
def audioFilename (ms : ℕ) : String :=
  "marty_" ++ Nat.repr ms ++ ".mp3"

/-- One step of reading a decimal digit string back into a number, used to
show that the timestamp can be recovered from `audioFilename` (so distinct
timestamps give distinct filenames). -/
def decStep (a : ℕ) (c : Char) : ℕ := 10 * a + (c.toNat - 48)

/-- Function `tts_to_file` from `app.py` lines 130–157: on any failure the broad
`except` logs and returns `None`; on success it writes the streamed bytes
to `static/audio/marty_<ms>.mp3` and returns the `/static` URL.  The text
argument only feeds the request payload, never the return value. -/
def tts_to_file (o : TtsOutcome) (_text : String) : Option String :=
  match o with
  | .failure => none
  | .success ms => some ("/static/audio/" ++ audioFilename ms)

/-- JSON values as parsed by Flask's `request.get_json` (numbers as `Int`;
only truthiness of numbers matters to the endpoint). -/
inductive JsonVal where
  | null
  | bool (b : Bool)
  | num (n : Int)
  | str (s : String)
  | arr (elems : List JsonVal)
  | obj (fields : List (String × JsonVal))

/-- Python truthiness of a JSON value: `None`, `False`, `0`, `""`, `[]`
and `{}` are falsy, everything else truthy. -/
def JsonVal.truthy : JsonVal → Bool
  | .null => false
  | .bool b => b
  | .num n => n != 0
  | .str s => s != ""
  | .arr elems => !elems.isEmpty
  | .obj fields => !fields.isEmpty

/-- Python `dict.get`: lookup of a key in a JSON object (parsed objects
have distinct keys, so first-match lookup is faithful). -/
def dictGet (key : String) : List (String × JsonVal) → Option JsonVal
  | [] => none
  | (k, v) :: rest => if k = key then some v else dictGet key rest

/-- The request body as the endpoint sees it: `noJson` covers an absent
body, a non-JSON content type and malformed JSON (all cases where
`request.get_json(silent=True)` yields `None`); `json v` a successfully
parsed JSON value. -/
inductive ReqBody where
  | noJson
  | json (v : JsonVal)

/-- Flask's `request.get_json(silent=True)` at `app.py` line 164. -/
def getJsonSilent : ReqBody → Option JsonVal
  | .noJson => none
  | .json v => some v

/-- Result of one `/chat` request: `serverError` is an unhandled Python
exception (Flask turns it into a 500), `badRequest e` the
`jsonify({"error": e}), 400` response, and `ok text audioUrl` the
`jsonify({"text": ..., "audioUrl": ...})` 200 response. -/
inductive ChatResult where
  | serverError
  | badRequest (error : String)
  | ok (text : String) (audioUrl : Option String)
deriving DecidableEq, Repr

/-- HTTP status code of a result. -/
def ChatResult.status : ChatResult → ℕ
  | .serverError => 500
  | .badRequest _ => 400
  | .ok _ _ => 200

/-- What the endpoint did with its collaborators: whether the
text-generation call was made, and the exact text handed to
`tts_to_file` (`none` when speech synthesis was never attempted).  A
`none` here also means no file was written, since the only file write in
the flow is inside `tts_to_file`. -/
structure ChatTrace where
  genCalled : Bool
  ttsInput : Option String
deriving DecidableEq, Repr

/-- Trace of a request that made no external call and wrote no file. -/
def noCalls : ChatTrace := { genCalled := false, ttsInput := none }

/-- Function `chat_endpoint` from `app.py` lines 162–193, line by line:
`data = request.get_json(silent=True) or {}`;
`user_message = (data.get("message") or "").strip()` — note that `.get`
on a non-dict raises `AttributeError`, as does `.strip()` on a truthy
non-string, which Flask surfaces as a 500; then the 400 guard, the Gemini
call with its apology fallback on failure and greeting fallback on
empty/whitespace output, `lightly_season`, `tts_to_file`, and the final
200 response. -/
def chat_endpoint (cfg : MartyConfig) (gen : GenOutcome) (tts : TtsOutcome)
    (rng : RandomSource) (body : ReqBody) : ChatResult × ChatTrace :=
  let data : JsonVal :=
    match getJsonSilent body with
    | none => .obj []
    | some v => if v.truthy then v else .obj []
  match data with
  | .obj fields =>
    let msgVal : JsonVal :=
      match dictGet "message" fields with
      | none => .str ""
      | some v => if v.truthy then v else .str ""
    match msgVal with
    | .str s =>
      let user_message := pyStrip s
      if user_message = "" then
        (.badRequest "No message provided", noCalls)
      else
        let bot_text :=
          match gen with
          | .failure =>
              "Sorry, I hit a snag generating that. Want to try a different way?"
          | .success t =>
              let t0 := pyStrip t
              if t0 = "" then "I’m here—how can I help?" else t0
        let seasoned :=
          lightly_season cfg.catchphrases cfg.catchphraseProb rng bot_text
        (.ok seasoned (tts_to_file tts seasoned),
         { genCalled := true, ttsInput := some seasoned })
    | _ => (.serverError, noCalls)
  | _ => (.serverError, noCalls)

/-- The working reply text after the text-generation step (the `bot_text`
variable of `chat_endpoint`): the apology on collaborator failure, the
greeting on empty or whitespace-only output, otherwise the stripped
output. -/
def genReply : GenOutcome → String
  | .failure => "Sorry, I hit a snag generating that. Want to try a different way?"
  | .success t => if pyStrip t = "" then "I’m here—how can I help?" else pyStrip t

/-! ## Helper lemmas about `lightly_season` -/

/-- Every branch of `lightly_season` returns either the input text or a
catchphrase-plus-space-plus-text. -/
theorem lightly_season_cases (cps : List String) (prob : ℚ) (rng : RandomSource)
    (text : String) :
    lightly_season cps prob rng text = text ∨
      lightly_season cps prob rng text =
        (cps.getD (rng.choiceIx % cps.length) "") ++ " " ++ text := by
  unfold lightly_season
  by_cases h1 : text = ""
  · simp [h1]
  · rw [if_neg h1]
    by_cases h2 : cps ≠ [] ∧ rng.draw < prob
    · rw [if_pos h2]
      by_cases h3 : ¬ (cps.any fun p => pyStartsWith text p) = true
      · rw [if_pos h3]; right; rfl
      · rw [if_neg h3]; left; rfl
    · rw [if_neg h2]; left; rfl

/-- Seasoning never turns a non-empty text into an empty one. -/
theorem lightly_season_ne_empty (cps : List String) (prob : ℚ)
    (rng : RandomSource) (text : String) (h : text ≠ "") :
    lightly_season cps prob rng text ≠ "" := by
  rcases lightly_season_cases cps prob rng text with hc | hc
  · rw [hc]; exact h
  · rw [hc]
    intro habs
    have := congrArg String.data habs
    simp [String.data_append] at this

/-! ## Claims C6, C7, C8: the seasoning transform -/

/-- C6: proved. If the catchphrase-insertion probability is `1.0`, the
catchphrase list is non-empty, and the input text is non-empty and does
not already start with any configured catchphrase, then for every draw of
the random source (`random.random()` lies in `[0,1)`) the seasoned text is
one of the configured catchphrases, a space, then the original text. -/
theorem lightly_season_prob_one (cps : List String) (rng : RandomSource)
    (text : String) (hcps : cps ≠ []) (htext : text ≠ "")
    (hstart : ∀ p ∈ cps, pyStartsWith text p = false)
    (hdraw : rng.draw < 1) :
    ∃ p ∈ cps, lightly_season cps 1 rng text = p ++ " " ++ text := by
  have hlen : rng.choiceIx % cps.length < cps.length :=
    Nat.mod_lt _ (List.length_pos.mpr hcps)
  refine ⟨cps.getD (rng.choiceIx % cps.length) "", ?_, ?_⟩
  · rw [List.getD_eq_getElem _ _ hlen]
    exact List.getElem_mem hlen
  · have hany : (cps.any fun p => pyStartsWith text p) = false := by
      rw [List.any_eq_false]
      intro p hp
      simp [hstart p hp]
    unfold lightly_season
    rw [if_neg htext, if_pos ⟨hcps, hdraw⟩, if_pos (by simp [hany])]

/-- Witness for C6 at a concrete input. -/
theorem lightly_season_prob_one_witness :
    ∃ p ∈ CATCHPHRASES,
      lightly_season CATCHPHRASES 1 ⟨mkRat 1 2, 8⟩ "hello there" =
        p ++ " " ++ "hello there" :=
  lightly_season_prob_one CATCHPHRASES ⟨mkRat 1 2, 8⟩ "hello there"
    (by decide) (by decide) (by decide) (by decide)

/-- C7: proved. If the catchphrase-insertion probability is `0.0` or the
catchphrase list is empty, seasoning is the identity for every input text
and every draw of the random source (`random.random()` is never below
`0`). -/
theorem lightly_season_noop (cps : List String) (prob : ℚ)
    (rng : RandomSource) (text : String) (h : prob = 0 ∨ cps = [])
    (hdraw : 0 ≤ rng.draw) :
    lightly_season cps prob rng text = text := by
  unfold lightly_season
  by_cases h1 : text = ""
  · simp [h1]
  · rcases h with h | h
    · subst h
      rw [if_neg h1, if_neg (by simp [not_lt.mpr hdraw])]
    · subst h
      rw [if_neg h1, if_neg (by simp)]

/-- Witness for C7 at concrete inputs, one per disjunct. -/
theorem lightly_season_noop_witness :
    lightly_season CATCHPHRASES 0 ⟨mkRat 1 2, 3⟩ "hello" = "hello" ∧
      lightly_season [] (mkRat 3 10) ⟨mkRat 1 5, 0⟩ "hello" = "hello" :=
  ⟨lightly_season_noop CATCHPHRASES 0 ⟨mkRat 1 2, 3⟩ "hello"
      (Or.inl rfl) (by decide),
   lightly_season_noop [] (mkRat 3 10) ⟨mkRat 1 5, 0⟩ "hello"
      (Or.inr rfl) (by decide)⟩

/-- C8: proved. A text that already starts with one of the configured
catchphrases passes through seasoning unchanged, for every draw of the
random source; consequently any number of repeated seasoning passes
leaves it unchanged, so no doubled catchphrase is ever produced. -/
theorem lightly_season_guard (cps : List String) (prob : ℚ) (text p : String)
    (hp : p ∈ cps) (hst : pyStartsWith text p = true) :
    (∀ rng : RandomSource, lightly_season cps prob rng text = text) ∧
      ∀ rngs : List RandomSource,
        rngs.foldl (fun t r => lightly_season cps prob r t) text = text := by
  have hone : ∀ rng : RandomSource, lightly_season cps prob rng text = text := by
    intro rng
    have hany : (cps.any fun q => pyStartsWith text q) = true :=
      List.any_eq_true.mpr ⟨p, hp, hst⟩
    unfold lightly_season
    by_cases h1 : text = ""
    · simp [h1]
    · rw [if_neg h1]
      by_cases h2 : cps ≠ [] ∧ rng.draw < prob
      · rw [if_pos h2, if_neg (by simp [hany])]
      · rw [if_neg h2]
  refine ⟨hone, ?_⟩
  intro rngs
  induction rngs with
  | nil => rfl
  | cons r rs ih => rw [List.foldl_cons, hone r, ih]

/-! ## Helper lemmas about `chat_endpoint` -/

/-- The working reply text is never empty. -/
theorem genReply_ne_empty (gen : GenOutcome) : genReply gen ≠ "" := by
  cases gen with
  | failure => decide
  | success t =>
    by_cases h : pyStrip t = ""
    · simp [genReply, h]
    · simp [genReply, h]

/-- On a body carrying a message that is non-empty after stripping,
`chat_endpoint` runs the full flow: the generated (or fallback) reply is
seasoned, handed to `tts_to_file`, and returned with status 200. -/
theorem chat_endpoint_valid_eq (cfg : MartyConfig) (gen : GenOutcome)
    (tts : TtsOutcome) (rng : RandomSource)
    (fields : List (String × JsonVal)) (s : String)
    (hmsg : dictGet "message" fields = some (JsonVal.str s))
    (hne : pyStrip s ≠ "") :
    chat_endpoint cfg gen tts rng (.json (.obj fields)) =
      (ChatResult.ok
          (lightly_season cfg.catchphrases cfg.catchphraseProb rng (genReply gen))
          (tts_to_file tts
            (lightly_season cfg.catchphrases cfg.catchphraseProb rng (genReply gen))),
       { genCalled := true,
         ttsInput := some
           (lightly_season cfg.catchphrases cfg.catchphraseProb rng
             (genReply gen)) }) := by
  have hfields : fields.isEmpty = false := by
    cases fields with
    | nil => simp [dictGet] at hmsg
    | cons a l => rfl
  have hs : (s != "") = true := by
    simp only [bne_iff_ne, ne_eq]
    intro h
    rw [h] at hne
    exact hne rfl
  cases gen with
  | failure =>
    simp [chat_endpoint, getJsonSilent, JsonVal.truthy, hfields, hmsg, hs,
      if_neg hne, genReply]
  | success t =>
    simp [chat_endpoint, getJsonSilent, JsonVal.truthy, hfields, hmsg, hs,
      if_neg hne, genReply]

/-- Witness for C8 at a concrete input. -/
theorem lightly_season_guard_witness :
    lightly_season CATCHPHRASES (mkRat 3 10) ⟨mkRat 1 10, 4⟩
      "No worries. mate" = "No worries. mate" :=
  (lightly_season_guard CATCHPHRASES (mkRat 3 10) "No worries. mate"
    "No worries." (by decide) (by decide)).1 ⟨mkRat 1 10, 4⟩

/-! ## Claims C1–C5, C10: the `/chat` endpoint -/

/-- C1: proved. A POST body whose `message` field is missing, or is a string
that is empty after stripping, yields status 400 with body
`{"error": "No message provided"}`, with no call to either collaborator
and no file written. -/
theorem chat_rejects_blank_message (cfg : MartyConfig) (gen : GenOutcome)
    (tts : TtsOutcome) (rng : RandomSource)
    (fields : List (String × JsonVal))
    (h : dictGet "message" fields = none ∨
         ∃ s, dictGet "message" fields = some (JsonVal.str s) ∧ pyStrip s = "") :
    chat_endpoint cfg gen tts rng (.json (.obj fields)) =
      (.badRequest "No message provided", noCalls) ∧
    (ChatResult.badRequest "No message provided").status = 400 := by
  have hstrip : pyStrip "" = "" := rfl
  refine ⟨?_, rfl⟩
  cases fields with
  | nil => simp [chat_endpoint, getJsonSilent, JsonVal.truthy, dictGet, hstrip]
  | cons a l =>
    rcases h with h | ⟨s, hmsg, hs⟩
    · simp [chat_endpoint, getJsonSilent, JsonVal.truthy, h, hstrip]
    · by_cases hse : s = ""
      · subst hse
        simp [chat_endpoint, getJsonSilent, JsonVal.truthy, hmsg, hstrip]
      · have hs2 : (s != "") = true := by simp [hse]
        simp [chat_endpoint, getJsonSilent, JsonVal.truthy, hmsg, hs2, hs]

/-- Witness for C1: a whitespace-only message and a missing message. -/
theorem chat_rejects_blank_message_witness :
    chat_endpoint defaultConfig (.success "hi") (.success 5) ⟨0, 0⟩
        (.json (.obj [("message", .str "   ")])) =
      (.badRequest "No message provided", noCalls) ∧
    (ChatResult.badRequest "No message provided").status = 400 :=
  chat_rejects_blank_message defaultConfig (.success "hi") (.success 5) ⟨0, 0⟩
    [("message", .str "   ")] (Or.inr ⟨"   ", rfl, rfl⟩)

/-- C2: proved. When the text-generation collaborator fails, the error is not
propagated: the reply text is the fixed apology string (with seasoning
applied to it), speech synthesis is still attempted on exactly that text,
and the response status is 200. -/
theorem chat_gen_failure_fallback (cfg : MartyConfig) (tts : TtsOutcome)
    (rng : RandomSource) (fields : List (String × JsonVal)) (s : String)
    (hmsg : dictGet "message" fields = some (JsonVal.str s))
    (hne : pyStrip s ≠ "") :
    chat_endpoint cfg .failure tts rng (.json (.obj fields)) =
      (ChatResult.ok
          (lightly_season cfg.catchphrases cfg.catchphraseProb rng
            "Sorry, I hit a snag generating that. Want to try a different way?")
          (tts_to_file tts
            (lightly_season cfg.catchphrases cfg.catchphraseProb rng
              "Sorry, I hit a snag generating that. Want to try a different way?")),
       { genCalled := true,
         ttsInput := some (lightly_season cfg.catchphrases cfg.catchphraseProb
           rng
           "Sorry, I hit a snag generating that. Want to try a different way?") })
      ∧
    (chat_endpoint cfg .failure tts rng (.json (.obj fields))).1.status
      = 200 := by
  have h := chat_endpoint_valid_eq cfg .failure tts rng fields s hmsg hne
  exact ⟨h, by rw [h]; rfl⟩

/-- Witness for C2 at a concrete input. -/
theorem chat_gen_failure_fallback_witness :
    chat_endpoint defaultConfig .failure (.success 3) ⟨mkRat 9 10, 0⟩
        (.json (.obj [("message", .str "hey")])) =
      (ChatResult.ok
          (lightly_season defaultConfig.catchphrases
            defaultConfig.catchphraseProb ⟨mkRat 9 10, 0⟩
            "Sorry, I hit a snag generating that. Want to try a different way?")
          (tts_to_file (.success 3)
            (lightly_season defaultConfig.catchphrases
              defaultConfig.catchphraseProb ⟨mkRat 9 10, 0⟩
              "Sorry, I hit a snag generating that. Want to try a different way?")),
       { genCalled := true,
         ttsInput := some (lightly_season defaultConfig.catchphrases
           defaultConfig.catchphraseProb ⟨mkRat 9 10, 0⟩
           "Sorry, I hit a snag generating that. Want to try a different way?") })
      ∧
    (chat_endpoint defaultConfig .failure (.success 3) ⟨mkRat 9 10, 0⟩
        (.json (.obj [("message", .str "hey")]))).1.status = 200 :=
  chat_gen_failure_fallback defaultConfig (.success 3) ⟨mkRat 9 10, 0⟩
    [("message", .str "hey")] "hey" rfl (by decide)

/-- C3: proved. When the speech-synthesis step fails (network error,
non-success status, or file-write error — all the broad `except` in
`tts_to_file`), the endpoint still answers 200 with a non-empty text and
`audioUrl` equal to `null`, so the response references no (partially
written) audio file. -/
theorem chat_tts_failure_audio_null (cfg : MartyConfig) (gen : GenOutcome)
    (rng : RandomSource) (fields : List (String × JsonVal)) (s : String)
    (hmsg : dictGet "message" fields = some (JsonVal.str s))
    (hne : pyStrip s ≠ "") :
    ∃ t, chat_endpoint cfg gen .failure rng (.json (.obj fields)) =
        (.ok t none, { genCalled := true, ttsInput := some t }) ∧
      t ≠ "" ∧ (ChatResult.ok t none).status = 200 := by
  refine ⟨lightly_season cfg.catchphrases cfg.catchphraseProb rng
    (genReply gen), ?_, ?_, rfl⟩
  · exact chat_endpoint_valid_eq cfg gen .failure rng fields s hmsg hne
  · exact lightly_season_ne_empty _ _ _ _ (genReply_ne_empty gen)

/-- Witness for C3 at a concrete input. -/
theorem chat_tts_failure_audio_null_witness :
    ∃ t, chat_endpoint defaultConfig (.success "hello") .failure
        ⟨mkRat 1 2, 0⟩ (.json (.obj [("message", .str "hey")])) =
        (.ok t none, { genCalled := true, ttsInput := some t }) ∧
      t ≠ "" ∧ (ChatResult.ok t none).status = 200 :=
  chat_tts_failure_audio_null defaultConfig (.success "hello") ⟨mkRat 1 2, 0⟩
    [("message", .str "hey")] "hey" rfl (by decide)

/-- C4: proved. When the text-generation collaborator succeeds but returns an
empty or whitespace-only string, the reply text is the fixed greeting
(with seasoning applied to it), and that greeting differs from the
apology used on collaborator failure. -/
theorem chat_gen_empty_greeting (cfg : MartyConfig) (tts : TtsOutcome)
    (rng : RandomSource) (fields : List (String × JsonVal)) (s t : String)
    (hmsg : dictGet "message" fields = some (JsonVal.str s))
    (hne : pyStrip s ≠ "") (ht : pyStrip t = "") :
    chat_endpoint cfg (.success t) tts rng (.json (.obj fields)) =
      (ChatResult.ok
          (lightly_season cfg.catchphrases cfg.catchphraseProb rng
            "I’m here—how can I help?")
          (tts_to_file tts
            (lightly_season cfg.catchphrases cfg.catchphraseProb rng
              "I’m here—how can I help?")),
       { genCalled := true,
         ttsInput := some (lightly_season cfg.catchphrases
           cfg.catchphraseProb rng "I’m here—how can I help?") }) ∧
    ("I’m here—how can I help?" : String) ≠
      "Sorry, I hit a snag generating that. Want to try a different way?" := by
  have h := chat_endpoint_valid_eq cfg (.success t) tts rng fields s hmsg hne
  have hg : genReply (.success t) = "I’m here—how can I help?" := by
    simp [genReply, ht]
  rw [hg] at h
  exact ⟨h, by decide⟩

/-- Witness for C4 at a concrete input. -/
theorem chat_gen_empty_greeting_witness :
    chat_endpoint defaultConfig (.success "  ") (.success 3) ⟨mkRat 9 10, 0⟩
        (.json (.obj [("message", .str "hey")])) =
      (ChatResult.ok
          (lightly_season defaultConfig.catchphrases
            defaultConfig.catchphraseProb ⟨mkRat 9 10, 0⟩
            "I’m here—how can I help?")
          (tts_to_file (.success 3)
            (lightly_season defaultConfig.catchphrases
              defaultConfig.catchphraseProb ⟨mkRat 9 10, 0⟩
              "I’m here—how can I help?")),
       { genCalled := true,
         ttsInput := some (lightly_season defaultConfig.catchphrases
           defaultConfig.catchphraseProb ⟨mkRat 9 10, 0⟩
           "I’m here—how can I help?") }) ∧
    ("I’m here—how can I help?" : String) ≠
      "Sorry, I hit a snag generating that. Want to try a different way?" :=
  chat_gen_empty_greeting defaultConfig (.success 3) ⟨mkRat 9 10, 0⟩
    [("message", .str "hey")] "hey" "  " rfl (by decide) (by decide)

/-- C5: proved. For every message that is non-empty after stripping, every
outcome of the two collaborators, and every draw of the random source,
the response is a 200 whose `text` field is non-empty. -/
theorem chat_text_nonempty (cfg : MartyConfig) (gen : GenOutcome)
    (tts : TtsOutcome) (rng : RandomSource)
    (fields : List (String × JsonVal)) (s : String)
    (hmsg : dictGet "message" fields = some (JsonVal.str s))
    (hne : pyStrip s ≠ "") :
    ∃ t audio, chat_endpoint cfg gen tts rng (.json (.obj fields)) =
        (.ok t audio, { genCalled := true, ttsInput := some t }) ∧
      t ≠ "" := by
  refine ⟨_, _, chat_endpoint_valid_eq cfg gen tts rng fields s hmsg hne, ?_⟩
  exact lightly_season_ne_empty _ _ _ _ (genReply_ne_empty gen)

/-- Witness for C5 at a concrete input. -/
theorem chat_text_nonempty_witness :
    ∃ t audio, chat_endpoint defaultConfig (.success "hello world")
        (.success 12) ⟨mkRat 1 10, 1⟩
        (.json (.obj [("message", .str "hey")])) =
        (.ok t audio, { genCalled := true, ttsInput := some t }) ∧
      t ≠ "" :=
  chat_text_nonempty defaultConfig (.success "hello world") (.success 12)
    ⟨mkRat 1 10, 1⟩ [("message", .str "hey")] "hey" rfl (by decide)

/-- C10, counterexample. The claim says every request body that is
not a JSON object is answered like a missing message with a 400.  But a
truthy non-object body (here the JSON number `5`) survives the
`or {}` fallback, so `data.get("message")` raises `AttributeError` and
the request ends as an unhandled 500, not a 400. -/
theorem chat_truthy_nonobject_counterexample :
    chat_endpoint defaultConfig (.success "hi") (.success 5) ⟨0, 0⟩
        (.json (.num 5)) = (.serverError, noCalls) ∧
    ChatResult.serverError.status = 500 := by decide

/-- C10, amended. A request body that is absent, malformed JSON, or
a falsy JSON value (`null`, `false`, `0`, `""`, `[]`, `{}`) falls back to
an empty object and is answered exactly like a missing message — 400,
no external call, no file; likewise a JSON object whose `message` value
is falsy is coerced to the empty string and rejected the same way.  A
truthy non-object body instead raises an unhandled attribute error
(surfaced as a 500), also before any external call. -/
theorem chat_body_fallback (cfg : MartyConfig) (gen : GenOutcome)
    (tts : TtsOutcome) (rng : RandomSource) :
    (chat_endpoint cfg gen tts rng .noJson =
        (.badRequest "No message provided", noCalls)) ∧
    (∀ v : JsonVal, v.truthy = false →
        chat_endpoint cfg gen tts rng (.json v) =
          (.badRequest "No message provided", noCalls)) ∧
    (∀ (fields : List (String × JsonVal)) (v : JsonVal),
        dictGet "message" fields = some v → v.truthy = false →
        chat_endpoint cfg gen tts rng (.json (.obj fields)) =
          (.badRequest "No message provided", noCalls)) ∧
    (∀ v : JsonVal, v.truthy = true → (∀ fields, v ≠ .obj fields) →
        chat_endpoint cfg gen tts rng (.json v) =
          (.serverError, noCalls)) := by
  have hstrip : pyStrip "" = "" := rfl
  refine ⟨?_, ?_, ?_, ?_⟩
  · simp [chat_endpoint, getJsonSilent, dictGet, hstrip]
  · intro v hv
    simp [chat_endpoint, getJsonSilent, hv, dictGet, hstrip]
  · intro fields v hmsg hv
    cases fields with
    | nil => simp [dictGet] at hmsg
    | cons a l =>
      have hobj : (JsonVal.obj (a :: l)).truthy = true := by
        simp [JsonVal.truthy]
      simp [chat_endpoint, getJsonSilent, hobj, hmsg, hv, hstrip]
  · intro v hv hnobj
    cases v with
    | null => simp [JsonVal.truthy] at hv
    | bool b => simp [chat_endpoint, getJsonSilent, hv]
    | num n => simp [chat_endpoint, getJsonSilent, hv]
    | str s => simp [chat_endpoint, getJsonSilent, hv]
    | arr elems => simp [chat_endpoint, getJsonSilent, hv]
    | obj fields => exact absurd rfl (hnobj fields)

/-- Witness for the amended C10: a falsy body and a truthy non-object
body at concrete inputs. -/
theorem chat_body_fallback_witness :
    chat_endpoint defaultConfig (.success "hi") (.success 5) ⟨0, 0⟩
        (.json (.arr [])) = (.badRequest "No message provided", noCalls) ∧
    chat_endpoint defaultConfig (.success "hi") (.success 5) ⟨0, 0⟩
        (.json (.str "oops")) = (.serverError, noCalls) :=
  ⟨(chat_body_fallback defaultConfig (.success "hi") (.success 5) ⟨0, 0⟩).2.1
      (.arr []) rfl,
   (chat_body_fallback defaultConfig (.success "hi") (.success 5)
      ⟨0, 0⟩).2.2.2 (.str "oops") rfl
      (fun _fields h => JsonVal.noConfusion h)⟩

/-! ## Claim C9: audio filenames -/

/-- The character emitted for a decimal digit decodes back to the digit. -/
theorem digitChar_decode (d : ℕ) (h : d < 10) :
    (Nat.digitChar d).toNat - 48 = d := by
  interval_cases d <;> rfl

/-- Folding the decimal decoder over `Nat.toDigitsCore` recovers the
rendered number (with enough fuel, the digits of `n` land in front of
`ds` and decode to `n` below the accumulator shifted by the digit
count). -/
theorem toDigitsCore_decode (fuel : ℕ) :
    ∀ (n : ℕ) (ds : List Char) (a : ℕ), n < fuel →
      ∃ k, 0 < k ∧
        List.foldl decStep a (Nat.toDigitsCore 10 fuel n ds) =
          List.foldl decStep (a * 10 ^ k + n) ds := by
  induction fuel with
  | zero => intro n ds a h; exact absurd h (Nat.not_lt_zero n)
  | succ f ih =>
    intro n ds a h
    by_cases h0 : n / 10 = 0
    · refine ⟨1, Nat.one_pos, ?_⟩
      have hn10 : n < 10 := by omega
      have hmod : n % 10 = n := Nat.mod_eq_of_lt hn10
      simp only [Nat.toDigitsCore]
      rw [if_pos h0, List.foldl_cons]
      simp only [decStep, digitChar_decode (n % 10) (Nat.mod_lt n (by norm_num))]
      have harith : 10 * a + n % 10 = a * 10 ^ 1 + n := by
        rw [hmod, pow_one]; ring
      rw [harith]
    · have hdivlt : n / 10 < f := by omega
      obtain ⟨k, hk, hrec⟩ := ih (n / 10) (Nat.digitChar (n % 10) :: ds) a hdivlt
      refine ⟨k + 1, Nat.succ_pos k, ?_⟩
      simp only [Nat.toDigitsCore]
      rw [if_neg h0, hrec, List.foldl_cons]
      simp only [decStep, digitChar_decode (n % 10) (Nat.mod_lt n (by norm_num))]
      congr 1
      have hdm : 10 * (n / 10) + n % 10 = n := Nat.div_add_mod n 10
      rw [pow_succ]
      calc 10 * (a * 10 ^ k + n / 10) + n % 10
          = a * (10 ^ k * 10) + (10 * (n / 10) + n % 10) := by ring
        _ = a * (10 ^ k * 10) + n := by rw [hdm]

/-- Reading the decimal rendering of `n` back gives `n`. -/
theorem decode_toDigits (n : ℕ) :
    List.foldl decStep 0 (Nat.toDigits 10 n) = n := by
  obtain ⟨k, -, h⟩ := toDigitsCore_decode (n + 1) n [] 0 (Nat.lt_succ_self n)
  simpa [Nat.toDigits] using h

/-- The decimal rendering used inside the filename is injective. -/
theorem natRepr_injective {m n : ℕ} (h : Nat.repr m = Nat.repr n) :
    m = n := by
  have hdata : Nat.toDigits 10 m = Nat.toDigits 10 n := by
    have h2 := congrArg String.data h
    simpa [Nat.repr, List.asString] using h2
  calc m = List.foldl decStep 0 (Nat.toDigits 10 m) := (decode_toDigits m).symm
    _ = List.foldl decStep 0 (Nat.toDigits 10 n) := by rw [hdata]
    _ = n := decode_toDigits n

/-- Filename `audioFilename` determines the millisecond timestamp. -/
theorem audioFilename_inj {m n : ℕ}
    (h : audioFilename m = audioFilename n) : m = n := by
  apply natRepr_injective
  have hd := congrArg String.data h
  simp only [audioFilename, String.data_append] at hd
  rw [List.append_assoc, List.append_assoc] at hd
  exact String.ext (List.append_cancel_right (List.append_cancel_left hd))

/-- C9, counterexample. The claim promises that any two synthesis
calls produce distinct filenames, but the name depends only on the
millisecond timestamp `int(time.time()*1000)`: two calls within the same
millisecond (here with different texts) produce the very same filename
and URL. -/
theorem tts_filename_collision :
    tts_to_file (.success 1700000000000) "first reply" =
      tts_to_file (.success 1700000000000) "second reply" ∧
    tts_to_file (.success 1700000000000) "first reply" =
      some "/static/audio/marty_1700000000000.mp3" ∧
    audioFilename 1700000000000 = "marty_1700000000000.mp3" := by decide

/-- C9, amended. Audio filenames have the form `marty_<ms>.mp3` with
`<ms>` the current millisecond timestamp, so the filename determines the
timestamp: two synthesis calls at distinct milliseconds produce distinct
filenames and distinct URLs.  (Calls within the same millisecond collide
— the counterexample above.) -/
theorem tts_filenames_distinct_of_distinct_ms (ms1 ms2 : ℕ)
    (t1 t2 : String) (h : ms1 ≠ ms2) :
    audioFilename ms1 ≠ audioFilename ms2 ∧
      tts_to_file (.success ms1) t1 ≠ tts_to_file (.success ms2) t2 := by
  have hfn : audioFilename ms1 ≠ audioFilename ms2 :=
    fun he => h (audioFilename_inj he)
  refine ⟨hfn, ?_⟩
  intro he
  apply hfn
  have h1 : "/static/audio/" ++ audioFilename ms1 =
      "/static/audio/" ++ audioFilename ms2 := Option.some.inj he
  have h2 := congrArg String.data h1
  simp only [String.data_append] at h2
  exact String.ext (List.append_cancel_left h2)

/-- Witness for the amended C9: consecutive milliseconds give different
names. -/
theorem tts_filenames_distinct_witness :
    audioFilename 1700000000000 ≠ audioFilename 1700000000001 ∧
      tts_to_file (.success 1700000000000) "first reply" ≠
        tts_to_file (.success 1700000000001) "second reply" :=
  tts_filenames_distinct_of_distinct_ms 1700000000000 1700000000001
    "first reply" "second reply" (by decide)

end Marty
